import Mathlib

/-!
# Verification of the lunar-calendar phase engine and renderer

Shallow embedding of the `reddy4500/calender` script sources.  The repository
holds three copies of the moon-phase widget script:

* `src/js/script.js` — phase as a fraction of the cycle via JavaScript's
  truncating `%` operator (namespace `ScriptJs` below);
* `src/unnamed/part_001`, first copy — age in days, normalized with a
  floor-based modulo (namespace `Floored` below);
* `src/unnamed/part_001`, second copy — age in days via the truncating `%`,
  with a hard-coded "today" of 2025‑07‑28 (namespace `Simulated` below).

JavaScript `Date` values are modelled by their millisecond timestamp as a
rational number; IEEE-754 doubles are modelled by exact rationals; the
transcendental illumination formula is modelled over `ℝ`.
-/

/-- The average length of a lunar month in days (`LUNAR_CYCLE` in all three
scripts), as an exact rational. -/
def LUNAR_CYCLE : ℚ := 29.530588853

/-- Millisecond timestamp of `new Date('2000-01-06T18:14:00Z')`
(`NEW_MOON_EPOCH` in all three scripts). -/
def NEW_MOON_EPOCH_MS : ℤ := 947182440000

/-- `msInDay = 1000 * 60 * 60 * 24`. -/
def msInDay : ℚ := 86400000

/-- Days elapsed since the reference new moon:
`(date.getTime() - NEW_MOON_EPOCH.getTime()) / msInDay`. -/
def daysSinceEpoch (t : ℚ) : ℚ := (t - NEW_MOON_EPOCH_MS) / msInDay

/-- Truncation toward zero, the rounding used by JavaScript's `%` operator. -/
def ratTrunc (q : ℚ) : ℤ := if q < 0 then ⌈q⌉ else ⌊q⌋

/-- JavaScript's remainder operator `a % b`: the remainder takes the sign of
the dividend because the quotient is truncated toward zero. -/
def jsMod (a b : ℚ) : ℚ := a - ratTrunc (a / b) * b

/-- Evaluation helper: express a ceiling through a floor, so that `norm_num`
(which evaluates `Int.floor` on `ℚ`) can compute truncated quotients. -/
theorem ceil_eq_neg_floor_neg (q : ℚ) : ⌈q⌉ = -⌊-q⌋ := by
  rw [Int.floor_neg, neg_neg]

/-- The name/emoji/major-flag part of the phase descriptor returned by each
`getMoonPhase`.  The illumination percentage is modelled separately (it is
computed from `Real.cos` and never feeds the classification). -/
structure MoonPhase where
  name : String
  emoji : String
  isMajor : Bool
deriving DecidableEq

/-- JavaScript `Math.round`: round half toward positive infinity. -/
noncomputable def jsRound (x : ℝ) : ℤ := ⌊x + 1/2⌋

namespace ScriptJs

/-- `src/js/script.js` line 33:
`const phase = (daysSinceEpoch / LUNAR_CYCLE) % 1;`. -/
def phase (t : ℚ) : ℚ := jsMod (daysSinceEpoch t / LUNAR_CYCLE) 1

/-- `src/js/script.js` lines 41–49: classification of the fractional phase. -/
def getMoonPhase (t : ℚ) : MoonPhase :=
  let p := phase t
  if p < 0.03 ∨ p > 0.97 then ⟨"New Moon", "🌑", true⟩
  else if p < 0.22 then ⟨"Waxing Crescent", "🌒", false⟩
  else if p < 0.28 then ⟨"First Quarter", "🌓", true⟩
  else if p < 0.47 then ⟨"Waxing Gibbous", "🌔", false⟩
  else if p < 0.53 then ⟨"Full Moon", "🌕", true⟩
  else if p < 0.72 then ⟨"Waning Gibbous", "🌖", false⟩
  else if p < 0.78 then ⟨"Last Quarter", "🌗", true⟩
  else ⟨"Waning Crescent", "🌘", false⟩

/-- `src/js/script.js` line 36:
`const illumination = 0.5 * (1 - Math.cos(phase * 2 * Math.PI));`. -/
noncomputable def illumination (t : ℚ) : ℝ :=
  0.5 * (1 - Real.cos ((phase t : ℝ) * 2 * Real.pi))

/-- `src/js/script.js` line 37:
`const illuminationPercent = Math.round(illumination * 100);`. -/
noncomputable def illuminationPercent (t : ℚ) : ℤ := jsRound (illumination t * 100)

end ScriptJs

namespace Floored

/-- `src/unnamed/part_001` lines 24–27: elapsed days, normalized to a positive
remainder with a floor-based modulo:
`daysSinceEpoch - Math.floor(daysSinceEpoch / LUNAR_CYCLE) * LUNAR_CYCLE`. -/
def age (t : ℚ) : ℚ :=
  daysSinceEpoch t - ⌊daysSinceEpoch t / LUNAR_CYCLE⌋ * LUNAR_CYCLE

/-- `src/unnamed/part_001` lines 51–61: classification of the lunar age in
days, including the final fallback return. -/
def getMoonPhase (t : ℚ) : MoonPhase :=
  let a := age t
  if a < 1.84566 ∨ a ≥ 27.68493 then ⟨"New Moon", "🌑", true⟩
  else if a < 5.53699 then ⟨"Waxing Crescent", "🌒", false⟩
  else if a < 9.22831 then ⟨"First Quarter", "🌓", true⟩
  else if a < 12.91963 then ⟨"Waxing Gibbous", "🌔", false⟩
  else if a < 16.61096 then ⟨"Full Moon", "🌕", true⟩
  else if a < 20.30228 then ⟨"Waning Gibbous", "🌖", false⟩
  else if a < 23.99361 then ⟨"Last Quarter", "🌗", true⟩
  else if a < 27.68493 then ⟨"Waning Crescent", "🌘", false⟩
  else ⟨"New Moon", "🌑", true⟩

/-- Mirror of `getMoonPhase` whose fallback (`should not reach here`,
line 60–61) is replaced by `none`, to state unreachability of the fallback. -/
def getMoonPhaseChecked (t : ℚ) : Option MoonPhase :=
  let a := age t
  if a < 1.84566 ∨ a ≥ 27.68493 then some ⟨"New Moon", "🌑", true⟩
  else if a < 5.53699 then some ⟨"Waxing Crescent", "🌒", false⟩
  else if a < 9.22831 then some ⟨"First Quarter", "🌓", true⟩
  else if a < 12.91963 then some ⟨"Waxing Gibbous", "🌔", false⟩
  else if a < 16.61096 then some ⟨"Full Moon", "🌕", true⟩
  else if a < 20.30228 then some ⟨"Waning Gibbous", "🌖", false⟩
  else if a < 23.99361 then some ⟨"Last Quarter", "🌗", true⟩
  else if a < 27.68493 then some ⟨"Waning Crescent", "🌘", false⟩
  else none

/-- `src/unnamed/part_001` line 31:
`const illumination = 0.5 * (1 - Math.cos(2 * Math.PI * daysSinceEpoch / LUNAR_CYCLE));`
(at that point `daysSinceEpoch` holds the normalized age). -/
noncomputable def illumination (t : ℚ) : ℝ :=
  0.5 * (1 - Real.cos (2 * Real.pi * (age t : ℝ) / (LUNAR_CYCLE : ℝ)))

/-- `src/unnamed/part_001` line 32:
`const illuminationPercent = Math.round(illumination * 100);`. -/
noncomputable def illuminationPercent (t : ℚ) : ℤ := jsRound (illumination t * 100)

end Floored

namespace Simulated

/-- `src/unnamed/part_001` (second copy) line 188: truncating remainder in
days, `const age = daysSinceEpoch % LUNAR_CYCLE;`. -/
def age (t : ℚ) : ℚ := jsMod (daysSinceEpoch t) LUNAR_CYCLE

/-- `src/unnamed/part_001` (second copy) lines 191–199: day-threshold
classification (no illumination in this copy). -/
def getMoonPhase (t : ℚ) : MoonPhase :=
  let a := age t
  if a < 1.84566 then ⟨"New Moon", "🌑", true⟩
  else if a < 5.53699 then ⟨"Waxing Crescent", "🌒", false⟩
  else if a < 9.22831 then ⟨"First Quarter", "🌓", true⟩
  else if a < 12.91963 then ⟨"Waxing Gibbous", "🌔", false⟩
  else if a < 16.61096 then ⟨"Full Moon", "🌕", true⟩
  else if a < 20.30228 then ⟨"Waning Gibbous", "🌖", false⟩
  else if a < 23.99361 then ⟨"Last Quarter", "🌗", true⟩
  else if a < 27.68493 then ⟨"Waning Crescent", "🌘", false⟩
  else ⟨"New Moon", "🌑", true⟩

end Simulated

/-- One synodic period expressed in milliseconds. -/
def PERIOD_MS : ℚ := LUNAR_CYCLE * msInDay

/-- The eight phase descriptors that the engines can return, in cycle order. -/
def phaseTable : List MoonPhase :=
  [⟨"New Moon", "🌑", true⟩, ⟨"Waxing Crescent", "🌒", false⟩,
   ⟨"First Quarter", "🌓", true⟩, ⟨"Waxing Gibbous", "🌔", false⟩,
   ⟨"Full Moon", "🌕", true⟩, ⟨"Waning Gibbous", "🌖", false⟩,
   ⟨"Last Quarter", "🌗", true⟩, ⟨"Waning Crescent", "🌘", false⟩]

/-- The four major phase names. -/
def majorNames : List String :=
  ["New Moon", "First Quarter", "Full Moon", "Last Quarter"]

theorem LUNAR_CYCLE_pos : (0 : ℚ) < LUNAR_CYCLE := by norm_num [LUNAR_CYCLE]

theorem msInDay_pos : (0 : ℚ) < msInDay := by norm_num [msInDay]

/-- The floor-normalized age is the period times the fractional part of the
elapsed-cycles count. -/
theorem Floored.age_eq_fract (t : ℚ) :
    Floored.age t = LUNAR_CYCLE * Int.fract (daysSinceEpoch t / LUNAR_CYCLE) := by
  have hL : (LUNAR_CYCLE : ℚ) ≠ 0 := ne_of_gt LUNAR_CYCLE_pos
  unfold Floored.age Int.fract
  field_simp
  ring

theorem Floored.age_nonneg (t : ℚ) : 0 ≤ Floored.age t := by
  rw [Floored.age_eq_fract]
  exact mul_nonneg (le_of_lt LUNAR_CYCLE_pos) (Int.fract_nonneg _)

theorem Floored.age_lt (t : ℚ) : Floored.age t < LUNAR_CYCLE := by
  rw [Floored.age_eq_fract]
  calc LUNAR_CYCLE * Int.fract (daysSinceEpoch t / LUNAR_CYCLE)
      < LUNAR_CYCLE * 1 :=
        (mul_lt_mul_left LUNAR_CYCLE_pos).mpr (Int.fract_lt_one _)
    _ = LUNAR_CYCLE := mul_one _

/-- Shifting the instant by one synodic period leaves the floor-normalized
age unchanged. -/
theorem Floored.age_add_period (t : ℚ) :
    Floored.age (t + PERIOD_MS) = Floored.age t := by
  have hm : (msInDay : ℚ) ≠ 0 := ne_of_gt msInDay_pos
  have hL : (LUNAR_CYCLE : ℚ) ≠ 0 := ne_of_gt LUNAR_CYCLE_pos
  have key : daysSinceEpoch (t + PERIOD_MS) = daysSinceEpoch t + LUNAR_CYCLE := by
    unfold daysSinceEpoch PERIOD_MS
    field_simp
    ring
  have key2 : (daysSinceEpoch t + LUNAR_CYCLE) / LUNAR_CYCLE
      = daysSinceEpoch t / LUNAR_CYCLE + 1 := by
    field_simp
  unfold Floored.age
  rw [key, key2, Int.floor_add_one]
  push_cast
  ring

/-- The floor-variant classification only depends on the instant through its
normalized age. -/
theorem Floored.getMoonPhase_congr {t1 t2 : ℚ} (h : Floored.age t1 = Floored.age t2) :
    Floored.getMoonPhase t1 = Floored.getMoonPhase t2 := by
  unfold Floored.getMoonPhase
  rw [h]

theorem Floored.illuminationPercent_congr {t1 t2 : ℚ}
    (h : Floored.age t1 = Floored.age t2) :
    Floored.illuminationPercent t1 = Floored.illuminationPercent t2 := by
  unfold Floored.illuminationPercent Floored.illumination
  rw [h]

/-- **C9.** In the floor-normalized variant of the phase engine
(`src/unnamed/part_001`, first copy) the final fallback return after the
eight threshold branches is unreachable: for every input instant the
normalized age lies in `[0, LUNAR_CYCLE)`, and the checked mirror of the
classifier (which returns `none` exactly on the fallback line) always agrees
with the real classifier through `some`. -/
theorem c9_floored_fallback_unreachable (t : ℚ) :
    (0 ≤ Floored.age t ∧ Floored.age t < LUNAR_CYCLE) ∧
    Floored.getMoonPhaseChecked t = some (Floored.getMoonPhase t) := by
  refine ⟨⟨Floored.age_nonneg t, Floored.age_lt t⟩, ?_⟩
  simp only [Floored.getMoonPhaseChecked, Floored.getMoonPhase]
  split_ifs with h1 h2 h3 h4 h5 h6 h7 h8
  · rfl
  · rfl
  · rfl
  · rfl
  · rfl
  · rfl
  · rfl
  · rfl
  · exact absurd (Or.inr (not_lt.mp h8)) h1

/-- **C9 witness**: the theorem instantiated at the reference epoch. -/
theorem c9_floored_fallback_unreachable_witness :
    (0 ≤ Floored.age 947182440000 ∧ Floored.age 947182440000 < LUNAR_CYCLE) ∧
    Floored.getMoonPhaseChecked 947182440000 = some (Floored.getMoonPhase 947182440000) :=
  c9_floored_fallback_unreachable 947182440000

/-- **C10.** In the `src/js/script.js` variant, every instant strictly before
the epoch whose elapsed time is not an exact whole number of synodic periods
yields a strictly negative fractional phase in `(-1, 0)`, and every such
negative phase is caught by the first branch (`phase < 0.03`), so the
function returns New Moon with `isMajor = true` regardless of the actual
lunar phase. -/
theorem c10_scriptjs_preepoch_always_new_moon (t : ℚ)
    (h1 : t < (NEW_MOON_EPOCH_MS : ℚ))
    (h2 : Int.fract (daysSinceEpoch t / LUNAR_CYCLE) ≠ 0) :
    (-1 < ScriptJs.phase t ∧ ScriptJs.phase t < 0) ∧
    ScriptJs.getMoonPhase t = ⟨"New Moon", "🌑", true⟩ := by
  set q : ℚ := daysSinceEpoch t / LUNAR_CYCLE with hq
  have hd : daysSinceEpoch t < 0 :=
    div_neg_of_neg_of_pos (by simpa using sub_neg.mpr h1) msInDay_pos
  have hqneg : q < 0 := div_neg_of_neg_of_pos hd LUNAR_CYCLE_pos
  have hphase : ScriptJs.phase t = q - ⌈q⌉ := by
    unfold ScriptJs.phase jsMod ratTrunc
    rw [div_one, if_pos hqneg, mul_one, ← hq]
  have hne : q ≠ (⌈q⌉ : ℚ) := by
    intro hcontra
    exact h2 (by rw [hcontra, Int.fract_intCast])
  have hupper : ScriptJs.phase t < 0 := by
    rw [hphase]
    have := Int.le_ceil q
    rcases lt_or_eq_of_le this with hlt | heq
    · linarith
    · exact absurd heq hne
  have hlower : -1 < ScriptJs.phase t := by
    rw [hphase]
    have := Int.ceil_lt_add_one q
    linarith
  refine ⟨⟨hlower, hupper⟩, ?_⟩
  unfold ScriptJs.getMoonPhase
  rw [if_pos]
  exact Or.inl (by norm_num; linarith)

/-- **C10 witness**: the instant ten days before the epoch. -/
theorem c10_scriptjs_preepoch_always_new_moon_witness :
    (946318440000 : ℚ) < (NEW_MOON_EPOCH_MS : ℚ) ∧
    ((-1 < ScriptJs.phase 946318440000 ∧ ScriptJs.phase 946318440000 < 0) ∧
      ScriptJs.getMoonPhase 946318440000 = ⟨"New Moon", "🌑", true⟩) := by
  constructor
  · norm_num [NEW_MOON_EPOCH_MS]
  · exact c10_scriptjs_preepoch_always_new_moon 946318440000
      (by norm_num [NEW_MOON_EPOCH_MS])
      (by
        norm_num [daysSinceEpoch, NEW_MOON_EPOCH_MS, msInDay, LUNAR_CYCLE, Int.fract])

/-- **C6.** Every descriptor returned by either phase engine is one of the
eight table entries; within the table the major flag is set exactly on the
four major phase names, and both the names and the emoji are pairwise
distinct, so symbol and name are in 1:1 correspondence across all returns. -/
theorem c6_major_flag_and_symbol_bijection :
    (∀ t : ℚ, ScriptJs.getMoonPhase t ∈ phaseTable) ∧
    (∀ t : ℚ, Floored.getMoonPhase t ∈ phaseTable) ∧
    (∀ p ∈ phaseTable, (p.isMajor = true ↔ p.name ∈ majorNames)) ∧
    (phaseTable.map MoonPhase.name).Nodup ∧
    (phaseTable.map MoonPhase.emoji).Nodup := by
  refine ⟨?_, ?_, ?_, ?_, ?_⟩
  · intro t
    simp only [ScriptJs.getMoonPhase]
    split_ifs <;> simp [phaseTable]
  · intro t
    simp only [Floored.getMoonPhase]
    split_ifs <;> simp [phaseTable]
  · decide
  · decide
  · decide

/-- **C4.** Both engines classify the exact reference instant as New Moon
with the major flag set, and both report an illumination percentage of 0. -/
theorem c4_epoch_is_new_moon :
    Floored.getMoonPhase (NEW_MOON_EPOCH_MS : ℚ) = ⟨"New Moon", "🌑", true⟩ ∧
    ScriptJs.getMoonPhase (NEW_MOON_EPOCH_MS : ℚ) = ⟨"New Moon", "🌑", true⟩ ∧
    Floored.illuminationPercent (NEW_MOON_EPOCH_MS : ℚ) = 0 ∧
    ScriptJs.illuminationPercent (NEW_MOON_EPOCH_MS : ℚ) = 0 := by
  have hage : Floored.age (NEW_MOON_EPOCH_MS : ℚ) = 0 := by
    norm_num [Floored.age, daysSinceEpoch, NEW_MOON_EPOCH_MS, msInDay, LUNAR_CYCLE]
  have hphase : ScriptJs.phase (NEW_MOON_EPOCH_MS : ℚ) = 0 := by
    norm_num [ScriptJs.phase, jsMod, ratTrunc, daysSinceEpoch, NEW_MOON_EPOCH_MS,
      msInDay, LUNAR_CYCLE]
  have hfloor_half : (⌊(1 : ℝ)/2⌋ : ℤ) = 0 := by norm_num
  refine ⟨?_, ?_, ?_, ?_⟩
  · unfold Floored.getMoonPhase
    rw [hage]
    norm_num
  · unfold ScriptJs.getMoonPhase
    rw [hphase]
    norm_num
  · unfold Floored.illuminationPercent Floored.illumination jsRound
    rw [hage]
    push_cast
    norm_num
  · unfold ScriptJs.illuminationPercent ScriptJs.illumination jsRound
    rw [hphase]
    push_cast
    norm_num

/-- The `src/js/script.js` fractional phase written without the redundant
`/ 1` and `* 1` of the generic remainder. -/
theorem ScriptJs.phase_eq (t : ℚ) :
    ScriptJs.phase t
      = daysSinceEpoch t / LUNAR_CYCLE - ratTrunc (daysSinceEpoch t / LUNAR_CYCLE) := by
  unfold ScriptJs.phase jsMod
  rw [div_one, mul_one]

/-- Shifting the cosine argument by a whole number of turns leaves it
unchanged. -/
theorem cos_arg_shift (x : ℝ) (c : ℤ) :
    Real.cos ((x - c) * 2 * Real.pi) = Real.cos (x * 2 * Real.pi) := by
  have h : (x - c) * 2 * Real.pi = x * 2 * Real.pi - c * (2 * Real.pi) := by ring
  rw [h, Real.cos_sub_int_mul_two_pi]

/-- The two scripts compute the same real illumination fraction: truncating
and flooring the cycle count differ by a whole number of turns, which the
cosine cannot see. -/
theorem ScriptJs.illumination_eq_floored (t : ℚ) :
    ScriptJs.illumination t = Floored.illumination t := by
  have hLQ : (LUNAR_CYCLE : ℚ) ≠ 0 := ne_of_gt LUNAR_CYCLE_pos
  have hL : ((LUNAR_CYCLE : ℚ) : ℝ) ≠ 0 := by exact_mod_cast hLQ
  set q : ℚ := daysSinceEpoch t / LUNAR_CYCLE with hq
  have hleft : ((ScriptJs.phase t : ℚ) : ℝ) * 2 * Real.pi
      = ((q : ℝ) - (ratTrunc q : ℤ)) * 2 * Real.pi := by
    rw [ScriptJs.phase_eq, ← hq]
    push_cast
    ring
  have hright : 2 * Real.pi * ((Floored.age t : ℚ) : ℝ) / ((LUNAR_CYCLE : ℚ) : ℝ)
      = ((q : ℝ) - (⌊q⌋ : ℤ)) * 2 * Real.pi := by
    unfold Floored.age
    rw [← hq]
    push_cast [hq]
    field_simp
    ring
  unfold ScriptJs.illumination Floored.illumination
  rw [hleft, hright, cos_arg_shift, cos_arg_shift]

theorem jsRound_nonneg {x : ℝ} (h : 0 ≤ x) : 0 ≤ jsRound x := by
  unfold jsRound
  exact Int.le_floor.mpr (by push_cast; linarith)

theorem jsRound_le_hundred {x : ℝ} (h : x ≤ 100) : jsRound x ≤ 100 := by
  unfold jsRound
  have h101 : ⌊x + 1/2⌋ < 101 := Int.floor_lt.mpr (by push_cast; linarith)
  omega

/-- The cosine illumination fraction lies in `[0, 1]`. -/
theorem illumination_fraction_bounds (θ : ℝ) :
    0 ≤ 0.5 * (1 - Real.cos θ) ∧ 0.5 * (1 - Real.cos θ) ≤ 1 := by
  have h1 := Real.cos_le_one θ
  have h2 := Real.neg_one_le_cos θ
  constructor <;> nlinarith

/-- **C3.** For every instant both engines report an integer illumination
percentage in `[0, 100]`, and the `script.js` truncating engine computes the
very same real illumination fraction `0.5 * (1 - cos(2·π·age/period))` as the
floor-normalized engine. -/
theorem c3_illumination_percent_in_range (t : ℚ) :
    (0 ≤ Floored.illuminationPercent t ∧ Floored.illuminationPercent t ≤ 100) ∧
    (0 ≤ ScriptJs.illuminationPercent t ∧ ScriptJs.illuminationPercent t ≤ 100) ∧
    ScriptJs.illumination t = Floored.illumination t := by
  have hfb := illumination_fraction_bounds
    (2 * Real.pi * ((Floored.age t : ℚ) : ℝ) / ((LUNAR_CYCLE : ℚ) : ℝ))
  have hsb := illumination_fraction_bounds (((ScriptJs.phase t : ℚ) : ℝ) * 2 * Real.pi)
  refine ⟨⟨?_, ?_⟩, ⟨?_, ?_⟩, ScriptJs.illumination_eq_floored t⟩
  · exact jsRound_nonneg (by unfold Floored.illumination; nlinarith [hfb.1])
  · exact jsRound_le_hundred (by unfold Floored.illumination; nlinarith [hfb.2])
  · exact jsRound_nonneg (by unfold ScriptJs.illumination; nlinarith [hsb.1])
  · exact jsRound_le_hundred (by unfold ScriptJs.illumination; nlinarith [hsb.2])

/-- **C1.** At the instant ten days before the reference new moon the
floor-normalized engine produces age `LUNAR_CYCLE - 10` and classifies
exactly as it does `LUNAR_CYCLE - 10` days after the epoch (Waning Gibbous),
as the claim requires — while the truncating `src/js/script.js` engine
returns New Moon there, contradicting the claim. -/
theorem c1_floor_vs_truncate_before_epoch :
    Floored.age 946318440000 = LUNAR_CYCLE - 10 ∧
    Floored.getMoonPhase 946318440000
      = Floored.getMoonPhase ((NEW_MOON_EPOCH_MS : ℚ) + (LUNAR_CYCLE - 10) * msInDay) ∧
    Floored.getMoonPhase 946318440000 = ⟨"Waning Gibbous", "🌖", false⟩ ∧
    ScriptJs.getMoonPhase 946318440000 = ⟨"New Moon", "🌑", true⟩ ∧
    (ScriptJs.getMoonPhase 946318440000).name ≠ (Floored.getMoonPhase 946318440000).name := by
  have hafter : Floored.getMoonPhase ((NEW_MOON_EPOCH_MS : ℚ) + (LUNAR_CYCLE - 10) * msInDay)
      = ⟨"Waning Gibbous", "🌖", false⟩ := by
    norm_num [Floored.getMoonPhase, Floored.age, daysSinceEpoch, NEW_MOON_EPOCH_MS,
      msInDay, LUNAR_CYCLE]
  have hbefore : Floored.getMoonPhase 946318440000 = ⟨"Waning Gibbous", "🌖", false⟩ := by
    norm_num [Floored.getMoonPhase, Floored.age, daysSinceEpoch, NEW_MOON_EPOCH_MS,
      msInDay, LUNAR_CYCLE]
  have hscript : ScriptJs.getMoonPhase 946318440000 = ⟨"New Moon", "🌑", true⟩ := by
    norm_num [ScriptJs.getMoonPhase, ScriptJs.phase, jsMod, ratTrunc, daysSinceEpoch,
      NEW_MOON_EPOCH_MS, msInDay, LUNAR_CYCLE, ceil_eq_neg_floor_neg]
  refine ⟨?_, hbefore.trans hafter.symm, hbefore, hscript, ?_⟩
  · norm_num [Floored.age, daysSinceEpoch, NEW_MOON_EPOCH_MS, msInDay, LUNAR_CYCLE]
  · rw [hscript, hbefore]
    decide

/-- **C5.** The floor-normalized engine is exactly periodic: shifting any
instant by one synodic period preserves the whole descriptor, illumination
percentage included.  The truncating `src/js/script.js` engine is not: ten
days before the epoch it answers New Moon, one synodic period later it
answers Waning Gibbous. -/
theorem c5_periodicity :
    (∀ t : ℚ, Floored.getMoonPhase (t + PERIOD_MS) = Floored.getMoonPhase t ∧
      Floored.illuminationPercent (t + PERIOD_MS) = Floored.illuminationPercent t) ∧
    ScriptJs.getMoonPhase 946318440000 = ⟨"New Moon", "🌑", true⟩ ∧
    ScriptJs.getMoonPhase (946318440000 + PERIOD_MS) = ⟨"Waning Gibbous", "🌖", false⟩ := by
  refine ⟨fun t => ⟨Floored.getMoonPhase_congr (Floored.age_add_period t),
    Floored.illuminationPercent_congr (Floored.age_add_period t)⟩, ?_, ?_⟩
  · norm_num [ScriptJs.getMoonPhase, ScriptJs.phase, jsMod, ratTrunc, daysSinceEpoch,
      NEW_MOON_EPOCH_MS, msInDay, LUNAR_CYCLE, ceil_eq_neg_floor_neg]
  · norm_num [ScriptJs.getMoonPhase, ScriptJs.phase, jsMod, ratTrunc, daysSinceEpoch,
      NEW_MOON_EPOCH_MS, msInDay, LUNAR_CYCLE, PERIOD_MS, ceil_eq_neg_floor_neg]

/-- Classifier written from the spec's words for comparison: eight
equal-width bins of `synodicPeriodDays/8`, with boundaries at exactly the
odd sixteenths of the synodic period and the New Moon bin wrapping across
the `0`/period boundary. -/
def specBinClassify (a : ℚ) : MoonPhase :=
  if a < LUNAR_CYCLE * 1 / 16 ∨ a ≥ LUNAR_CYCLE * 15 / 16 then ⟨"New Moon", "🌑", true⟩
  else if a < LUNAR_CYCLE * 3 / 16 then ⟨"Waxing Crescent", "🌒", false⟩
  else if a < LUNAR_CYCLE * 5 / 16 then ⟨"First Quarter", "🌓", true⟩
  else if a < LUNAR_CYCLE * 7 / 16 then ⟨"Waxing Gibbous", "🌔", false⟩
  else if a < LUNAR_CYCLE * 9 / 16 then ⟨"Full Moon", "🌕", true⟩
  else if a < LUNAR_CYCLE * 11 / 16 then ⟨"Waning Gibbous", "🌖", false⟩
  else if a < LUNAR_CYCLE * 13 / 16 then ⟨"Last Quarter", "🌗", true⟩
  else ⟨"Waning Crescent", "🌘", false⟩

/-- **C2 counterexample.**  Six days after the epoch the normalized age (6)
falls in the equal-width First Quarter bin `[3/16·P, 5/16·P)`, yet the
`script.js` engine answers Waxing Crescent (its crescent bin reaches up to
`0.22` of the period, well past `3/16`).  And at an age between `1.84566`
and `P/16` the floor-variant engine answers Waxing Crescent while the exact
sixteenth-boundary bins put the age in New Moon: the code thresholds are
5-decimal roundings, not the exact sixteenths. -/
theorem c2_equal_bins_counterexample :
    (ScriptJs.getMoonPhase 947700840000).name = "Waxing Crescent" ∧
    (specBinClassify (Floored.age 947700840000)).name = "First Quarter" ∧
    (Floored.getMoonPhase 947341905100).name = "Waxing Crescent" ∧
    (specBinClassify (Floored.age 947341905100)).name = "New Moon" := by
  refine ⟨?_, ?_, ?_, ?_⟩
  · norm_num [ScriptJs.getMoonPhase, ScriptJs.phase, jsMod, ratTrunc, daysSinceEpoch,
      NEW_MOON_EPOCH_MS, msInDay, LUNAR_CYCLE]
  · norm_num [specBinClassify, Floored.age, daysSinceEpoch, NEW_MOON_EPOCH_MS,
      msInDay, LUNAR_CYCLE]
  · norm_num [Floored.getMoonPhase, Floored.age, daysSinceEpoch, NEW_MOON_EPOCH_MS,
      msInDay, LUNAR_CYCLE]
  · norm_num [specBinClassify, Floored.age, daysSinceEpoch, NEW_MOON_EPOCH_MS,
      msInDay, LUNAR_CYCLE]

set_option maxHeartbeats 1000000 in
/-- **C2 amended.**  The floor-variant engine does classify by eight
contiguous non-overlapping bins with the New Moon bin wrapping, but its bin
boundaries are 5-decimal roundings of the odd sixteenths of the period: it
agrees with the exact equal-width-bin classifier at every age that is at
least `1/50000` of a day away from each of the eight exact boundaries. -/
theorem c2_amended_bins_within_tolerance (t : ℚ)
    (h1 : 1/50000 ≤ |Floored.age t - LUNAR_CYCLE * 1 / 16|)
    (h3 : 1/50000 ≤ |Floored.age t - LUNAR_CYCLE * 3 / 16|)
    (h5 : 1/50000 ≤ |Floored.age t - LUNAR_CYCLE * 5 / 16|)
    (h7 : 1/50000 ≤ |Floored.age t - LUNAR_CYCLE * 7 / 16|)
    (h9 : 1/50000 ≤ |Floored.age t - LUNAR_CYCLE * 9 / 16|)
    (h11 : 1/50000 ≤ |Floored.age t - LUNAR_CYCLE * 11 / 16|)
    (h13 : 1/50000 ≤ |Floored.age t - LUNAR_CYCLE * 13 / 16|)
    (h15 : 1/50000 ≤ |Floored.age t - LUNAR_CYCLE * 15 / 16|) :
    Floored.getMoonPhase t = specBinClassify (Floored.age t) := by
  have e1 : Floored.age t < 1.84566 ↔ Floored.age t < LUNAR_CYCLE * 1 / 16 := by
    have hlo : LUNAR_CYCLE * 1 / 16 - 1/50000 < 1.84566 := by norm_num [LUNAR_CYCLE]
    have hhi : (1.84566 : ℚ) < LUNAR_CYCLE * 1 / 16 + 1/50000 := by norm_num [LUNAR_CYCLE]
    rcases le_abs.mp h1 with hd | hd <;> constructor <;> intro h <;> linarith
  have e3 : Floored.age t < 5.53699 ↔ Floored.age t < LUNAR_CYCLE * 3 / 16 := by
    have hlo : LUNAR_CYCLE * 3 / 16 - 1/50000 < 5.53699 := by norm_num [LUNAR_CYCLE]
    have hhi : (5.53699 : ℚ) < LUNAR_CYCLE * 3 / 16 + 1/50000 := by norm_num [LUNAR_CYCLE]
    rcases le_abs.mp h3 with hd | hd <;> constructor <;> intro h <;> linarith
  have e5 : Floored.age t < 9.22831 ↔ Floored.age t < LUNAR_CYCLE * 5 / 16 := by
    have hlo : LUNAR_CYCLE * 5 / 16 - 1/50000 < 9.22831 := by norm_num [LUNAR_CYCLE]
    have hhi : (9.22831 : ℚ) < LUNAR_CYCLE * 5 / 16 + 1/50000 := by norm_num [LUNAR_CYCLE]
    rcases le_abs.mp h5 with hd | hd <;> constructor <;> intro h <;> linarith
  have e7 : Floored.age t < 12.91963 ↔ Floored.age t < LUNAR_CYCLE * 7 / 16 := by
    have hlo : LUNAR_CYCLE * 7 / 16 - 1/50000 < 12.91963 := by norm_num [LUNAR_CYCLE]
    have hhi : (12.91963 : ℚ) < LUNAR_CYCLE * 7 / 16 + 1/50000 := by norm_num [LUNAR_CYCLE]
    rcases le_abs.mp h7 with hd | hd <;> constructor <;> intro h <;> linarith
  have e9 : Floored.age t < 16.61096 ↔ Floored.age t < LUNAR_CYCLE * 9 / 16 := by
    have hlo : LUNAR_CYCLE * 9 / 16 - 1/50000 < 16.61096 := by norm_num [LUNAR_CYCLE]
    have hhi : (16.61096 : ℚ) < LUNAR_CYCLE * 9 / 16 + 1/50000 := by norm_num [LUNAR_CYCLE]
    rcases le_abs.mp h9 with hd | hd <;> constructor <;> intro h <;> linarith
  have e11 : Floored.age t < 20.30228 ↔ Floored.age t < LUNAR_CYCLE * 11 / 16 := by
    have hlo : LUNAR_CYCLE * 11 / 16 - 1/50000 < 20.30228 := by norm_num [LUNAR_CYCLE]
    have hhi : (20.30228 : ℚ) < LUNAR_CYCLE * 11 / 16 + 1/50000 := by norm_num [LUNAR_CYCLE]
    rcases le_abs.mp h11 with hd | hd <;> constructor <;> intro h <;> linarith
  have e13 : Floored.age t < 23.99361 ↔ Floored.age t < LUNAR_CYCLE * 13 / 16 := by
    have hlo : LUNAR_CYCLE * 13 / 16 - 1/50000 < 23.99361 := by norm_num [LUNAR_CYCLE]
    have hhi : (23.99361 : ℚ) < LUNAR_CYCLE * 13 / 16 + 1/50000 := by norm_num [LUNAR_CYCLE]
    rcases le_abs.mp h13 with hd | hd <;> constructor <;> intro h <;> linarith
  have e15lt : Floored.age t < 27.68493 ↔ Floored.age t < LUNAR_CYCLE * 15 / 16 := by
    have hlo : LUNAR_CYCLE * 15 / 16 - 1/50000 < 27.68493 := by norm_num [LUNAR_CYCLE]
    have hhi : (27.68493 : ℚ) < LUNAR_CYCLE * 15 / 16 + 1/50000 := by norm_num [LUNAR_CYCLE]
    rcases le_abs.mp h15 with hd | hd <;> constructor <;> intro h <;> linarith
  have e15ge : Floored.age t ≥ 27.68493 ↔ Floored.age t ≥ LUNAR_CYCLE * 15 / 16 := by
    rw [ge_iff_le, ge_iff_le, ← not_lt, ← not_lt, not_iff_not]
    exact e15lt
  simp only [Floored.getMoonPhase, specBinClassify, ← e1, ← e3, ← e5, ← e7, ← e9, ← e11,
    ← e13, ← e15ge]
  split_ifs with g1 g2 g3 g4 g5 g6 g7 g8
  all_goals try rfl
  exact absurd (Or.inr (not_lt.mp g8)) g1

/-- **C2 amended witness**: six days after the epoch, both the floor-variant
engine and the exact equal-bin classifier answer First Quarter. -/
theorem c2_amended_bins_within_tolerance_witness :
    Floored.getMoonPhase 947700840000 = specBinClassify (Floored.age 947700840000) :=
  c2_amended_bins_within_tolerance 947700840000
    (le_abs.mpr (Or.inl (by norm_num [Floored.age, daysSinceEpoch, NEW_MOON_EPOCH_MS,
      msInDay, LUNAR_CYCLE])))
    (le_abs.mpr (Or.inl (by norm_num [Floored.age, daysSinceEpoch, NEW_MOON_EPOCH_MS,
      msInDay, LUNAR_CYCLE])))
    (le_abs.mpr (Or.inr (by norm_num [Floored.age, daysSinceEpoch, NEW_MOON_EPOCH_MS,
      msInDay, LUNAR_CYCLE])))
    (le_abs.mpr (Or.inr (by norm_num [Floored.age, daysSinceEpoch, NEW_MOON_EPOCH_MS,
      msInDay, LUNAR_CYCLE])))
    (le_abs.mpr (Or.inr (by norm_num [Floored.age, daysSinceEpoch, NEW_MOON_EPOCH_MS,
      msInDay, LUNAR_CYCLE])))
    (le_abs.mpr (Or.inr (by norm_num [Floored.age, daysSinceEpoch, NEW_MOON_EPOCH_MS,
      msInDay, LUNAR_CYCLE])))
    (le_abs.mpr (Or.inr (by norm_num [Floored.age, daysSinceEpoch, NEW_MOON_EPOCH_MS,
      msInDay, LUNAR_CYCLE])))
    (le_abs.mpr (Or.inr (by norm_num [Floored.age, daysSinceEpoch, NEW_MOON_EPOCH_MS,
      msInDay, LUNAR_CYCLE])))

/-- Days-since-Unix-epoch to proleptic-Gregorian civil date `(year, month
1..12, day)`, the conversion performed by JavaScript's `Date` component
getters.  Standard era-based algorithm; every division below runs on
non-negative operands for the inputs used here. -/
def civilFromDays (z : ℤ) : ℤ × ℤ × ℤ :=
  let z2 := z + 719468
  let era := (if 0 ≤ z2 then z2 else z2 - 146096) / 146097
  let doe := z2 - era * 146097
  let yoe := (doe - doe / 1460 + doe / 36524 - doe / 146096) / 365
  let y := yoe + era * 400
  let doy := doe - (365 * yoe + yoe / 4 - yoe / 100)
  let mp := (5 * doy + 2) / 153
  let d := doy - (153 * mp + 2) / 5 + 1
  let m := if mp < 10 then mp + 3 else mp - 9
  (if m ≤ 2 then y + 1 else y, m, d)

/-- Local civil day number of the instant `t` (UTC milliseconds) at a UTC
offset of `h` hours (local wall clock = UTC + `h`). -/
def localDays (t h : ℚ) : ℤ := ⌊(t + h * 3600000) / 86400000⌋

/-- JavaScript `date.getFullYear()` in a zone at UTC offset `h` hours. -/
def getFullYear (t h : ℚ) : ℤ := (civilFromDays (localDays t h)).1

/-- JavaScript `date.getMonth()` (0-based) in a zone at UTC offset `h`. -/
def getMonth (t h : ℚ) : ℤ := (civilFromDays (localDays t h)).2.1 - 1

/-- JavaScript `date.getDate()` in a zone at UTC offset `h`. -/
def getDate (t h : ℚ) : ℤ := (civilFromDays (localDays t h)).2.2

/-- The triple of calendar-date components that `createMonthCalendar` reads
off the today reference (`getFullYear`/`getMonth`/`getDate`). -/
def dateComponents (t h : ℚ) : ℤ × ℤ × ℤ := (getFullYear t h, getMonth t h, getDate t h)

/-- `src/js/script.js` line 138: a grid cell is the today cell iff its day
number, month index and year all equal the components of the today
reference. -/
def isTodayCell (monthIndex year d : ℤ) (todayT h : ℚ) : Bool :=
  (d == getDate todayT h) && (monthIndex == getMonth todayT h) &&
    (year == getFullYear todayT h)

/-- **C8.** Building a month grid marks exactly the same cell (or no cell)
as today for any two today references with equal calendar-date components:
the time-of-day of the reference instant has no influence on the marking. -/
theorem c8_isToday_ignores_time_of_day (monthIndex year d : ℤ) (t1 t2 h : ℚ)
    (hcomp : dateComponents t1 h = dateComponents t2 h) :
    isTodayCell monthIndex year d t1 h = isTodayCell monthIndex year d t2 h := by
  simp only [dateComponents, Prod.mk.injEq] at hcomp
  obtain ⟨hy, hm, hd⟩ := hcomp
  unfold isTodayCell
  rw [hy, hm, hd]

/-- **C8 witness**: midnight UTC and 15:47 UTC of 2025‑07‑28 share their
date components, so every cell of the July 2025 grid — the July 28 cell
included — receives the same today marking for both references. -/
theorem c8_isToday_ignores_time_of_day_witness :
    dateComponents 1753660800000 0 = dateComponents 1753717620000 0 ∧
    isTodayCell 6 2025 28 1753660800000 0 = isTodayCell 6 2025 28 1753717620000 0 := by
  have h1 : localDays 1753660800000 0 = 20297 := by
    unfold localDays
    norm_num
  have h2 : localDays 1753717620000 0 = 20297 := by
    unfold localDays
    norm_num
  have hcomp : dateComponents 1753660800000 0 = dateComponents 1753717620000 0 := by
    unfold dateComponents getFullYear getMonth getDate
    rw [h1, h2]
  exact ⟨hcomp, c8_isToday_ignores_time_of_day 6 2025 28 1753660800000 1753717620000 0 hcomp⟩

namespace ScriptJs

/-- `src/js/script.js` lines 137–144: the highlight suffix of the cell's
class string — an exclusive if/else-if chain, today first. -/
def cellHighlight (isToday isMajor : Bool) : String :=
  if isToday then "today" else if isMajor then "major-phase" else "hover:bg-gray-700"

end ScriptJs

namespace Simulated

/-- Wall-clock milliseconds (components read back unchanged in any zone) of
the hard-coded simulated today `new Date('2025-07-28T15:47:00')` in the
second `part_001` copy, line 252. -/
def simulatedTodayWallMs : ℚ := 1753717620000

/-- UTC millisecond timestamp of the simulated today when the renderer runs
at UTC offset `h` hours. -/
def todayMs (h : ℚ) : ℚ := simulatedTodayWallMs - h * 3600000

/-- Days before each month of 2025 (not a leap year). -/
def cumDays2025 : List ℕ := [0, 31, 59, 90, 120, 151, 181, 212, 243, 273, 304, 334]

/-- `new Date(year, monthIndex + 1, 0).getDate()` for the year 2025. -/
def daysInMonth2025 : List ℕ := [31, 28, 31, 30, 31, 30, 31, 31, 30, 31, 30, 31]

/-- Unix day number of the local date `new Date(2025, m, d)`: 20089 days
elapsed from 1970‑01‑01 to 2025‑01‑01. -/
def unixDay2025 (m d : ℕ) : ℕ := 20089 + cumDays2025.getD m 0 + (d - 1)

/-- UTC millisecond timestamp of local midnight `new Date(2025, m, d)` at
UTC offset `h` hours. -/
def cellMs (m d : ℕ) (h : ℚ) : ℚ := (unixDay2025 m d : ℚ) * 86400000 - h * 3600000

/-- Line 277 of the second copy: `day === currentDay && monthIndex ===
currentMonth && year === currentYear`, with the current components read from
the hard-coded today. -/
def isToday (m d y : ℕ) (h : ℚ) : Bool :=
  ((d : ℤ) == getDate (todayMs h) h) && ((m : ℤ) == getMonth (todayMs h) h) &&
    ((y : ℤ) == getFullYear (todayMs h) h)

/-- Lines 281–290 of the second copy: base classes, then `major-phase` is
pushed when the phase is major, then `today` is pushed when the cell is
today — the chain is not exclusive, both can be pushed. -/
def dayClasses (isM isT : Bool) : List String :=
  ["h-14", "rounded-lg", "flex", "flex-col", "items-center", "justify-center",
    "transition-all", "duration-300", "ease-in-out", "relative", "text-xs"] ++
  (if isM then ["major-phase"] else []) ++
  (if isT then ["today"] else [])

/-- The rendered class list of day `d` of 0-based month `m` of 2025. -/
def cellClasses (m d : ℕ) (h : ℚ) : List String :=
  dayClasses (Simulated.getMoonPhase (cellMs m d h)).isMajor (Simulated.isToday m d 2025 h)

/-- The configured months, July to December 2025 (`renderAllCalendars`). -/
def monthsToDisplay : List ℕ := [6, 7, 8, 9, 10, 11]

end Simulated

theorem Simulated.today_mem_dayClasses (isM isT : Bool) :
    "today" ∈ Simulated.dayClasses isM isT ↔ isT = true := by
  cases isM <;> cases isT <;> decide

theorem Simulated.major_mem_dayClasses (isM isT : Bool) :
    "major-phase" ∈ Simulated.dayClasses isM isT ↔ isM = true := by
  cases isM <;> cases isT <;> decide

/-- In every zone, the hard-coded simulated today reads back as day 28 of
month index 6 of year 2025. -/
theorem Simulated.today_components (h : ℚ) :
    getDate (todayMs h) h = 28 ∧ getMonth (todayMs h) h = 6 ∧
      getFullYear (todayMs h) h = 2025 := by
  have harg : todayMs h + h * 3600000 = 1753717620000 := by
    unfold Simulated.todayMs Simulated.simulatedTodayWallMs
    ring
  have hld : localDays (todayMs h) h = 20297 := by
    unfold localDays
    rw [harg]
    norm_num
  unfold getDate getMonth getFullYear
  rw [hld]
  refine ⟨by decide, by decide, by decide⟩

/-- In every real-world zone (UTC−12 … UTC+14), local midnight of
2025‑07‑28 falls 315 full cycles plus roughly 2 to 3 days after the epoch:
a Waxing Crescent, so its major flag is false. -/
theorem Simulated.july28_not_major (h : ℚ) (hlo : -12 ≤ h) (hhi : h ≤ 14) :
    (Simulated.getMoonPhase (Simulated.cellMs 6 28 h)).isMajor = false := by
  have hcell : Simulated.unixDay2025 6 28 = 20297 := by decide
  have hd : daysSinceEpoch (Simulated.cellMs 6 28 h) = 806478360000/86400000 - h/24 := by
    unfold Simulated.cellMs daysSinceEpoch NEW_MOON_EPOCH_MS msInDay
    rw [hcell]
    push_cast
    ring
  set dd : ℚ := daysSinceEpoch (Simulated.cellMs 6 28 h) with hdd
  have hq316 : (316 : ℚ) ≤ dd / LUNAR_CYCLE := by
    rw [le_div_iff₀ LUNAR_CYCLE_pos]
    rw [hd]
    norm_num [LUNAR_CYCLE]
    linarith
  have hq317 : dd / LUNAR_CYCLE < 317 := by
    rw [div_lt_iff₀ LUNAR_CYCLE_pos]
    rw [hd]
    norm_num [LUNAR_CYCLE]
    linarith
  have hqpos : ¬(dd / LUNAR_CYCLE < 0) := by
    push_neg
    linarith
  have htrunc : ratTrunc (dd / LUNAR_CYCLE) = 316 := by
    unfold ratTrunc
    rw [if_neg hqpos]
    rw [Int.floor_eq_iff]
    constructor
    · exact_mod_cast hq316
    · exact_mod_cast hq317
  have hage : Simulated.age (Simulated.cellMs 6 28 h) = dd - 316 * LUNAR_CYCLE := by
    unfold Simulated.age jsMod
    rw [← hdd, htrunc]
    push_cast
    ring
  have hage1 : ¬(Simulated.age (Simulated.cellMs 6 28 h) < 1.84566) := by
    push_neg
    rw [hage, hd]
    norm_num [LUNAR_CYCLE]
    linarith
  have hage2 : Simulated.age (Simulated.cellMs 6 28 h) < 5.53699 := by
    rw [hage, hd]
    norm_num [LUNAR_CYCLE]
    linarith
  simp only [Simulated.getMoonPhase]
  rw [if_neg hage1, if_pos hage2]

/-- **C7.** In `src/js/script.js` the highlight is a single class chosen by
an exclusive if/else-if chain with today first, so a cell that is both today
and a major phase gets only the today style.  In the second `part_001` copy
both classes could in principle be pushed, but with its hard-coded today of
2025‑07‑28 no rendered cell of the configured July–December 2025 grids ever
carries the `today` and `major-phase` classes simultaneously, in any
real-world zone. -/
theorem c7_today_highlight_precedence :
    (∀ m : Bool, ScriptJs.cellHighlight true m = "today") ∧
    (∀ (m d : ℕ) (h : ℚ), m ∈ Simulated.monthsToDisplay → 1 ≤ d →
      d ≤ Simulated.daysInMonth2025.getD m 0 → -12 ≤ h → h ≤ 14 →
      ¬("today" ∈ Simulated.cellClasses m d h ∧
        "major-phase" ∈ Simulated.cellClasses m d h)) := by
  constructor
  · intro m
    rfl
  · intro m d h hm hd1 hd2 hlo hhi hcon
    obtain ⟨htoday, hmajor⟩ := hcon
    unfold Simulated.cellClasses at htoday hmajor
    have hT : Simulated.isToday m d 2025 h = true :=
      (Simulated.today_mem_dayClasses _ _).mp htoday
    have hM : (Simulated.getMoonPhase (Simulated.cellMs m d h)).isMajor = true :=
      (Simulated.major_mem_dayClasses _ _).mp hmajor
    have hc := Simulated.today_components h
    simp only [Simulated.isToday, hc.1, hc.2.1, hc.2.2, Bool.and_eq_true,
      beq_iff_eq] at hT
    obtain ⟨⟨hd28, hm6⟩, -⟩ := hT
    have hdN : d = 28 := by exact_mod_cast hd28
    have hmN : m = 6 := by exact_mod_cast hm6
    subst hdN
    subst hmN
    rw [Simulated.july28_not_major h hlo hhi] at hM
    exact Bool.false_ne_true hM

/-- **C7 witness**: the July 28 cell of the July 2025 grid (the today cell)
at UTC offset 0 does not carry both classes. -/
theorem c7_today_highlight_precedence_witness :
    (6 ∈ Simulated.monthsToDisplay ∧ 1 ≤ 28 ∧
      28 ≤ Simulated.daysInMonth2025.getD 6 0) ∧
    ¬("today" ∈ Simulated.cellClasses 6 28 0 ∧
      "major-phase" ∈ Simulated.cellClasses 6 28 0) :=
  ⟨⟨by decide, by decide, by decide⟩,
    c7_today_highlight_precedence.2 6 28 0 (by decide) (by decide) (by decide)
      (by norm_num) (by norm_num)⟩

